import Mathlib

/-!
Shallow embedding of `src/frontend/src/components/Chat.js`.

The component keeps twelve pieces of React state; we model them as one
record.  The browser speech-recognition and speech-synthesis instances are
modelled by their presence (`recognition`, `synthesis` as `Bool`), matching
the only way the component inspects them (truthiness checks).  Backend
calls are modelled by passing the response as an explicit argument and by
returning the list of HTTP requests the handler issues.  Clock reads
(`Date.now()`, `toISOString()`) are modelled by `Nat` parameters.
-/

/-- A chat message as the component constructs it: `duration` is set only on
successful assistant replies, `error` marks failure notices. -/
@[ext]
structure Message where
  id : Nat
  role : String
  content : String
  timestamp : Nat
  duration : Option Nat
  error : Bool
deriving DecidableEq, Repr

/-- The React state hooks of the `Chat` component. -/
@[ext]
structure ChatState where
  messages : List Message
  inputMessage : String
  isLoading : Bool
  isTyping : Bool
  showSuggestions : Bool
  isListening : Bool
  isSpeaking : Bool
  recognition : Bool
  synthesis : Bool
  uploadedFiles : List String
  isDragging : Bool
  isUploading : Bool
deriving DecidableEq, Repr

/-- An HTTP request the component can issue via axios. -/
inductive Request where
  | getFiles : Request
  | postUpload : List String → Request
  | postChat : String → Bool → Request
deriving DecidableEq, Repr

/-- The URL path a request is sent to. -/
def Request.endpoint : Request → String
  | Request.getFiles => "/files"
  | Request.postUpload _ => "/upload"
  | Request.postChat _ _ => "/chat"

/-- Response of `GET /files`: on success, `response.data.files` which may be
absent (the code writes `response.data.files || []`). -/
inductive FilesResponse where
  | success : Option (List String) → FilesResponse
  | failure : FilesResponse
deriving DecidableEq, Repr

/-- Response of `POST /upload`: on success, `response.data.message`. -/
inductive UploadResponse where
  | success : String → UploadResponse
  | failure : UploadResponse
deriving DecidableEq, Repr

/-- Successful body of `POST /chat`: `content` and optional `duration`. -/
structure ChatSuccess where
  content : String
  duration : Option Nat
deriving DecidableEq, Repr

/-- Response of `POST /chat`. -/
inductive ChatResponse where
  | success : ChatSuccess → ChatResponse
  | failure : ChatResponse
deriving DecidableEq, Repr

/-- `loadUploadedFiles` (Chat.js lines 86-93): `GET /files`; on success set
`uploadedFiles` to `response.data.files || []`, on failure only log. -/
def loadUploadedFiles (s : ChatState) (resp : FilesResponse) :
    ChatState × List Request :=
  match resp with
  | FilesResponse.success files =>
      ({ s with uploadedFiles := files.getD [] }, [Request.getFiles])
  | FilesResponse.failure => (s, [Request.getFiles])

/-- `handleFileUpload` (Chat.js lines 95-137).  `files` is the possibly-null
`FileList`; `now` models `Date.now()`.  On success it appends the backend
confirmation suffixed with ". Kya puchna hai?" and re-runs
`loadUploadedFiles`; on failure it appends an error-flagged message; either
way `isUploading` ends `false` (the `finally` block). -/
def handleFileUpload (s : ChatState) (files : Option (List String)) (now : Nat)
    (uresp : UploadResponse) (fresp : FilesResponse) :
    ChatState × List Request :=
  match files with
  | none => (s, [])
  | some fs =>
    if fs.length = 0 then (s, [])
    else
      let s0 := { s with isUploading := true }
      match uresp with
      | UploadResponse.success msg =>
          let successMessage : Message :=
            ⟨now, "assistant", msg ++ ". Kya puchna hai?", now, none, false⟩
          let s1 := { s0 with messages := s0.messages ++ [successMessage] }
          let lr := loadUploadedFiles s1 fresp
          ({ lr.1 with isUploading := false }, Request.postUpload fs :: lr.2)
      | UploadResponse.failure =>
          let errorMessage : Message :=
            ⟨now, "assistant", "File upload failed. Please try again.", now, none, true⟩
          ({ s0 with messages := s0.messages ++ [errorMessage], isUploading := false },
           [Request.postUpload fs])

/-- `handleDragOver` (Chat.js lines 139-142). -/
def handleDragOver (s : ChatState) : ChatState :=
  { s with isDragging := true }

/-- `handleDragLeave` (Chat.js lines 144-147). -/
def handleDragLeave (s : ChatState) : ChatState :=
  { s with isDragging := false }

/-- `handleDrop` (Chat.js lines 149-154): clear `isDragging`, then upload the
dropped files. -/
def handleDrop (s : ChatState) (files : Option (List String)) (now : Nat)
    (uresp : UploadResponse) (fresp : FilesResponse) :
    ChatState × List Request :=
  handleFileUpload { s with isDragging := false } files now uresp fresp

/-- `startListening` (Chat.js lines 161-166): guarded by a recognition
instance existing and not already listening. -/
def startListening (s : ChatState) : ChatState :=
  if s.recognition ∧ ¬ s.isListening then { s with isListening := true } else s

/-- `stopListening` (Chat.js lines 168-173): guarded by a recognition
instance existing and currently listening. -/
def stopListening (s : ChatState) : ChatState :=
  if s.recognition ∧ s.isListening then { s with isListening := false } else s

/-- `speakResponse` (Chat.js lines 175-191): when synthesis exists and not
already speaking, hand `text` to the synthesiser (returned as the second
component); state changes happen only later through utterance callbacks. -/
def speakResponse (s : ChatState) (text : String) : ChatState × Option String :=
  if s.synthesis ∧ ¬ s.isSpeaking then (s, some text) else (s, none)

/-- `stopSpeaking` (Chat.js lines 193-198): when synthesis exists, cancel and
clear `isSpeaking`. -/
def stopSpeaking (s : ChatState) : ChatState :=
  if s.synthesis then { s with isSpeaking := false } else s

/-- JavaScript `String.prototype.trim`: strip whitespace from both ends. -/
def trimString (s : String) : String :=
  String.mk (((s.data.dropWhile Char.isWhitespace).reverse.dropWhile
    Char.isWhitespace).reverse)

/-- The message `sendMessage` resolves (Chat.js line 201): `messageText`
defaults to null; a falsy argument (null or the empty string) falls back to
`inputMessage.trim()`. -/
def sendMessageText (s : ChatState) (messageText : Option String) : String :=
  match messageText with
  | some t => if t = "" then trimString s.inputMessage else t
  | none => trimString s.inputMessage

/-- The synchronous prefix of `sendMessage` (Chat.js lines 200-216), up to the
`axios.post`.  Returns `none` when the guard `!message || isLoading` aborts,
otherwise the updated state and the message to be posted. -/
def sendMessageStart (s : ChatState) (messageText : Option String) (now : Nat) :
    Option (ChatState × String) :=
  let message := sendMessageText s messageText
  if message = "" ∨ s.isLoading then none
  else
    let userMessage : Message := ⟨now, "user", message, now, none, false⟩
    some ({ s with
              messages := s.messages ++ [userMessage],
              inputMessage := "",
              isLoading := true,
              isTyping := true,
              showSuggestions := false },
          message)

/-- The continuation of `sendMessage` after the `POST /chat` resolves
(Chat.js lines 217-251).  Second component: the text scheduled for
auto-speech via `setTimeout`, when the reply is shorter than 200
characters. -/
def sendMessageComplete (s : ChatState) (now : Nat) (resp : ChatResponse) :
    ChatState × Option String :=
  match resp with
  | ChatResponse.success r =>
      let assistantMessage : Message :=
        ⟨now + 1, "assistant", r.content, now, r.duration, false⟩
      ({ s with messages := s.messages ++ [assistantMessage],
                isLoading := false, isTyping := false },
       if r.content.length < 200 then some r.content else none)
  | ChatResponse.failure =>
      let errorMessage : Message :=
        ⟨now + 1, "assistant", "Sorry, something went wrong. Please try again!",
         now, none, true⟩
      ({ s with messages := s.messages ++ [errorMessage],
                isLoading := false, isTyping := false },
       none)

/-- Result of one whole run of `sendMessage`: final state, requests issued,
and the reply text scheduled for auto-speech, if any. -/
structure SendResult where
  state : ChatState
  requests : List Request
  scheduledSpeech : Option String
deriving DecidableEq, Repr

/-- One whole run of `sendMessage` (Chat.js lines 200-251): the synchronous
start, then the single `POST /chat` with `stream: false`, then the
completion.  `now` is the clock at the start, `now2` at completion. -/
def sendMessage (s : ChatState) (messageText : Option String) (now now2 : Nat)
    (resp : ChatResponse) : SendResult :=
  match sendMessageStart s messageText now with
  | none => ⟨s, [], none⟩
  | some (s1, message) =>
      let c := sendMessageComplete s1 now2 resp
      ⟨c.1, [Request.postChat message false], c.2⟩

/-- The state the component mounts with (the `useState` initial values). -/
def initState : ChatState :=
  ⟨[], "", false, false, true, false, false, false, false, [], false, false⟩

/-- Component state together with whether a `POST /chat` is in flight: the
stretch of `sendMessage` between its synchronous start and its
completion. -/
@[ext]
structure World where
  ui : ChatState
  pendingChat : Bool
deriving DecidableEq, Repr

/-- The world at mount time: initial state, no request in flight. -/
def initWorld : World := ⟨initState, false⟩

/-- One event of the component.  Mount effects, user events and async
callbacks, each translated from the corresponding handler in Chat.js.  The
recognition callbacks (`onresult`, `onerror`, `onend`) exist only when a
recognition instance was created, and an utterance `onstart` only when
synthesis exists, hence those guards.  `sendMessage` is split into its
synchronous start (which marks a chat request in flight) and its
completion; uploads and file loads are taken atomically since no claim
observes their in-flight window. -/
inductive WStep : World → World → Prop where
  | initRecognition (w : World) :
      WStep w ⟨{ w.ui with recognition := true }, w.pendingChat⟩
  | initSynthesis (w : World) :
      WStep w ⟨{ w.ui with synthesis := true }, w.pendingChat⟩
  | welcome (w : World) (m : Message) :
      WStep w ⟨{ w.ui with messages := [m] }, w.pendingChat⟩
  | typeInput (w : World) (t : String) :
      WStep w ⟨{ w.ui with inputMessage := t }, w.pendingChat⟩
  | loadFiles (w : World) (resp : FilesResponse) :
      WStep w ⟨(loadUploadedFiles w.ui resp).1, w.pendingChat⟩
  | upload (w : World) (files : Option (List String)) (now : Nat)
      (uresp : UploadResponse) (fresp : FilesResponse) :
      WStep w ⟨(handleFileUpload w.ui files now uresp fresp).1, w.pendingChat⟩
  | dragOver (w : World) : WStep w ⟨handleDragOver w.ui, w.pendingChat⟩
  | dragLeave (w : World) : WStep w ⟨handleDragLeave w.ui, w.pendingChat⟩
  | drop (w : World) (files : Option (List String)) (now : Nat)
      (uresp : UploadResponse) (fresp : FilesResponse) :
      WStep w ⟨(handleDrop w.ui files now uresp fresp).1, w.pendingChat⟩
  | startL (w : World) : WStep w ⟨startListening w.ui, w.pendingChat⟩
  | stopL (w : World) : WStep w ⟨stopListening w.ui, w.pendingChat⟩
  | speak (w : World) (t : String) :
      WStep w ⟨(speakResponse w.ui t).1, w.pendingChat⟩
  | stopS (w : World) : WStep w ⟨stopSpeaking w.ui, w.pendingChat⟩
  | recogResult (w : World) (t : String) : w.ui.recognition = true →
      WStep w ⟨{ w.ui with inputMessage := t, isListening := false }, w.pendingChat⟩
  | recogEnd (w : World) : w.ui.recognition = true →
      WStep w ⟨{ w.ui with isListening := false }, w.pendingChat⟩
  | speechStart (w : World) : w.ui.synthesis = true →
      WStep w ⟨{ w.ui with isSpeaking := true }, w.pendingChat⟩
  | speechEnd (w : World) : WStep w ⟨{ w.ui with isSpeaking := false }, w.pendingChat⟩
  | sendStart (w : World) (messageText : Option String) (now : Nat)
      (s1 : ChatState) (m : String) :
      sendMessageStart w.ui messageText now = some (s1, m) →
      WStep w ⟨s1, true⟩
  | sendComplete (w : World) (now : Nat) (resp : ChatResponse) :
      w.pendingChat = true →
      WStep w ⟨(sendMessageComplete w.ui now resp).1, false⟩

/-- Worlds reachable from mount. -/
inductive Reachable : World → Prop where
  | init : Reachable initWorld
  | step {w w2 : World} : Reachable w → WStep w w2 → Reachable w2

/-- `loadUploadedFiles` touches only `uploadedFiles`. -/
theorem loadUploadedFiles_frame (s : ChatState) (resp : FilesResponse) :
    ((loadUploadedFiles s resp).1).isLoading = s.isLoading ∧
    ((loadUploadedFiles s resp).1).isTyping = s.isTyping ∧
    ((loadUploadedFiles s resp).1).isListening = s.isListening ∧
    ((loadUploadedFiles s resp).1).isSpeaking = s.isSpeaking ∧
    ((loadUploadedFiles s resp).1).recognition = s.recognition ∧
    ((loadUploadedFiles s resp).1).synthesis = s.synthesis := by
  cases resp <;> simp [loadUploadedFiles]

/-- `handleFileUpload` never touches the chat, voice or loading flags. -/
theorem handleFileUpload_frame (s : ChatState) (files : Option (List String))
    (now : Nat) (uresp : UploadResponse) (fresp : FilesResponse) :
    ((handleFileUpload s files now uresp fresp).1).isLoading = s.isLoading ∧
    ((handleFileUpload s files now uresp fresp).1).isTyping = s.isTyping ∧
    ((handleFileUpload s files now uresp fresp).1).isListening = s.isListening ∧
    ((handleFileUpload s files now uresp fresp).1).isSpeaking = s.isSpeaking ∧
    ((handleFileUpload s files now uresp fresp).1).recognition = s.recognition ∧
    ((handleFileUpload s files now uresp fresp).1).synthesis = s.synthesis := by
  cases files with
  | none => simp [handleFileUpload]
  | some fs =>
    cases uresp <;> cases fresp <;>
      by_cases h : fs.length = 0 <;>
      simp [handleFileUpload, loadUploadedFiles, h]

/-- What a successful start of `sendMessage` must look like. -/
theorem sendMessageStart_eq_some {s : ChatState} {mt : Option String} {now : Nat}
    {s1 : ChatState} {m : String}
    (h : sendMessageStart s mt now = some (s1, m)) :
    s.isLoading = false ∧ m = sendMessageText s mt ∧ m ≠ "" ∧
    s1 = { s with
             messages := s.messages ++ [⟨now, "user", m, now, none, false⟩],
             inputMessage := "", isLoading := true, isTyping := true,
             showSuggestions := false } := by
  simp only [sendMessageStart] at h
  split at h
  · exact absurd h (by simp)
  · next hcond =>
    simp only [not_or, Bool.not_eq_true] at hcond
    rw [Option.some.injEq, Prod.mk.injEq] at h
    obtain ⟨hs, hm⟩ := h
    subst hm
    exact ⟨hcond.2, rfl, hcond.1, hs.symm⟩

/-- `sendMessageComplete` clears the flags and leaves voice state alone. -/
theorem sendMessageComplete_frame (s : ChatState) (now : Nat) (resp : ChatResponse) :
    ((sendMessageComplete s now resp).1).isTyping = false ∧
    ((sendMessageComplete s now resp).1).isLoading = false ∧
    ((sendMessageComplete s now resp).1).isListening = s.isListening ∧
    ((sendMessageComplete s now resp).1).isSpeaking = s.isSpeaking ∧
    ((sendMessageComplete s now resp).1).recognition = s.recognition ∧
    ((sendMessageComplete s now resp).1).synthesis = s.synthesis := by
  cases resp <;> simp [sendMessageComplete]

/-- `startListening`, on any state: the flag becomes true exactly when it was
already true or a recognition instance exists; nothing else changes. -/
theorem startListening_eq (s : ChatState) :
    startListening s = { s with isListening := s.isListening || s.recognition } := by
  unfold startListening
  split
  · next hc =>
    obtain ⟨h1, h2⟩ := hc
    simp only [Bool.not_eq_true] at h2
    ext <;> simp [h1, h2]
  · next hc =>
    simp only [not_and_or, Bool.not_eq_true, not_not] at hc
    rcases hc with h1 | h2
    · ext <;> simp [h1]
    · rw [Bool.not_eq_false] at h2
      ext <;> simp [h2]

/-- `speakResponse` changes no state synchronously. -/
theorem speakResponse_fst (s : ChatState) (t : String) :
    (speakResponse s t).1 = s := by
  unfold speakResponse
  split <;> rfl

/-- The reachability invariant: a chat request in flight implies `isLoading`;
the typing indicator implies a request in flight; the voice flags imply the
corresponding browser API instance exists. -/
def WorldInv (w : World) : Prop :=
  (w.pendingChat = true → w.ui.isLoading = true) ∧
  (w.ui.isTyping = true → w.pendingChat = true) ∧
  (w.ui.isListening = true → w.ui.recognition = true) ∧
  (w.ui.isSpeaking = true → w.ui.synthesis = true)

theorem reachable_inv {w : World} (h : Reachable w) : WorldInv w := by
  induction h with
  | init => exact ⟨fun hx => absurd hx (by simp [initWorld]),
      fun hx => absurd hx (by simp [initWorld, initState]),
      fun hx => absurd hx (by simp [initWorld, initState]),
      fun hx => absurd hx (by simp [initWorld, initState])⟩
  | @step w w2 hr hs ih =>
    obtain ⟨i1, i2, i3, i4⟩ := ih
    cases hs with
    | initRecognition => exact ⟨i1, i2, fun _ => rfl, i4⟩
    | initSynthesis => exact ⟨i1, i2, i3, fun _ => rfl⟩
    | welcome m => exact ⟨i1, i2, i3, i4⟩
    | typeInput t => exact ⟨i1, i2, i3, i4⟩
    | loadFiles resp =>
      obtain ⟨f1, f2, f3, f4, f5, f6⟩ := loadUploadedFiles_frame w.ui resp
      refine ⟨fun hp => ?_, fun ht => ?_, fun hl => ?_, fun hsp => ?_⟩
      · rw [f1]; exact i1 hp
      · rw [f2] at ht; exact i2 ht
      · rw [f3] at hl; rw [f5]; exact i3 hl
      · rw [f4] at hsp; rw [f6]; exact i4 hsp
    | upload files now uresp fresp =>
      obtain ⟨f1, f2, f3, f4, f5, f6⟩ := handleFileUpload_frame w.ui files now uresp fresp
      refine ⟨fun hp => ?_, fun ht => ?_, fun hl => ?_, fun hsp => ?_⟩
      · rw [f1]; exact i1 hp
      · rw [f2] at ht; exact i2 ht
      · rw [f3] at hl; rw [f5]; exact i3 hl
      · rw [f4] at hsp; rw [f6]; exact i4 hsp
    | dragOver => exact ⟨i1, i2, i3, i4⟩
    | dragLeave => exact ⟨i1, i2, i3, i4⟩
    | drop files now uresp fresp =>
      obtain ⟨f1, f2, f3, f4, f5, f6⟩ :=
        handleFileUpload_frame { w.ui with isDragging := false } files now uresp fresp
      refine ⟨fun hp => ?_, fun ht => ?_, fun hl => ?_, fun hsp => ?_⟩
      · rw [show (handleDrop w.ui files now uresp fresp).1
            = (handleFileUpload { w.ui with isDragging := false } files now uresp fresp).1 from rfl, f1]
        exact i1 hp
      · rw [show (handleDrop w.ui files now uresp fresp).1
            = (handleFileUpload { w.ui with isDragging := false } files now uresp fresp).1 from rfl, f2] at ht
        exact i2 ht
      · rw [show (handleDrop w.ui files now uresp fresp).1
            = (handleFileUpload { w.ui with isDragging := false } files now uresp fresp).1 from rfl, f3] at hl
        rw [show (handleDrop w.ui files now uresp fresp).1
            = (handleFileUpload { w.ui with isDragging := false } files now uresp fresp).1 from rfl, f5]
        exact i3 hl
      · rw [show (handleDrop w.ui files now uresp fresp).1
            = (handleFileUpload { w.ui with isDragging := false } files now uresp fresp).1 from rfl, f4] at hsp
        rw [show (handleDrop w.ui files now uresp fresp).1
            = (handleFileUpload { w.ui with isDragging := false } files now uresp fresp).1 from rfl, f6]
        exact i4 hsp
    | startL =>
      rw [startListening_eq]
      refine ⟨i1, i2, fun hl => ?_, i4⟩
      simp only [Bool.or_eq_true] at hl
      rcases hl with hl | hl
      · exact i3 hl
      · exact hl
    | stopL =>
      unfold stopListening
      split
      · exact ⟨i1, i2, fun hl => absurd hl (by simp), i4⟩
      · exact ⟨i1, i2, i3, i4⟩
    | speak t =>
      rw [speakResponse_fst]
      exact ⟨i1, i2, i3, i4⟩
    | stopS =>
      unfold stopSpeaking
      split
      · exact ⟨i1, i2, i3, fun hsp => absurd hsp (by simp)⟩
      · exact ⟨i1, i2, i3, i4⟩
    | recogResult t hrec => exact ⟨i1, i2, fun hl => absurd hl (by simp), i4⟩
    | recogEnd hrec => exact ⟨i1, i2, fun hl => absurd hl (by simp), i4⟩
    | speechStart hsyn => exact ⟨i1, i2, i3, fun _ => hsyn⟩
    | speechEnd => exact ⟨i1, i2, i3, fun hsp => absurd hsp (by simp)⟩
    | sendStart mt now s1 m hstart =>
      obtain ⟨hload, hm, hne, hrec⟩ := sendMessageStart_eq_some hstart
      subst hrec
      exact ⟨fun _ => rfl, fun _ => rfl, i3, i4⟩
    | sendComplete now resp hp =>
      obtain ⟨f1, f2, f3, f4, f5, f6⟩ := sendMessageComplete_frame w.ui now resp
      refine ⟨fun hx => absurd hx (by simp), fun ht => ?_, fun hl => ?_, fun hsp => ?_⟩
      · rw [f1] at ht; exact absurd ht (by simp)
      · rw [f3] at hl; rw [f5]; exact i3 hl
      · rw [f4] at hsp; rw [f6]; exact i4 hsp

/-- With a non-empty trimmed input and no request in flight, the start of
`sendMessage` with a null argument succeeds and posts the trimmed input. -/
theorem sendMessageStart_none_eq {s : ChatState} {now : Nat}
    (h1 : trimString s.inputMessage ≠ "") (h2 : s.isLoading = false) :
    sendMessageStart s none now
      = some ({ s with
                  messages := s.messages ++
                    [⟨now, "user", trimString s.inputMessage, now, none, false⟩],
                  inputMessage := "", isLoading := true, isTyping := true,
                  showSuggestions := false },
              trimString s.inputMessage) := by
  simp [sendMessageStart, sendMessageText, h1, h2]

/-- C1: when the trimmed input is non-empty and no request is in flight,
`sendMessage` issues exactly one request, `POST /chat` carrying the trimmed
input verbatim with `stream: false`; on success it appends the user message
and exactly one assistant message whose content is the reply verbatim and
whose duration is the optional duration of the response. -/
theorem sendMessage_success_posts_trimmed (s : ChatState) (now now2 : Nat)
    (r : ChatSuccess)
    (h1 : trimString s.inputMessage ≠ "") (h2 : s.isLoading = false) :
    (sendMessage s none now now2 (ChatResponse.success r)).requests
      = [Request.postChat (trimString s.inputMessage) false] ∧
    (sendMessage s none now now2 (ChatResponse.success r)).state.messages
      = s.messages ++
          [⟨now, "user", trimString s.inputMessage, now, none, false⟩,
           ⟨now2 + 1, "assistant", r.content, now2, r.duration, false⟩] := by
  unfold sendMessage
  rw [sendMessageStart_none_eq h1 h2]
  constructor
  · rfl
  · simp [sendMessageComplete]

theorem sendMessage_success_posts_trimmed_witness :
    trimString (" hello " : String) ≠ "" ∧
    ((sendMessage { initState with inputMessage := " hello " } none 5 7
        (ChatResponse.success ⟨"yo", some 2⟩)).requests
      = [Request.postChat (trimString " hello ") false] ∧
    (sendMessage { initState with inputMessage := " hello " } none 5 7
        (ChatResponse.success ⟨"yo", some 2⟩)).state.messages
      = [⟨5, "user", trimString " hello ", 5, none, false⟩,
         ⟨8, "assistant", "yo", 7, some 2, false⟩]) :=
  ⟨by decide,
   sendMessage_success_posts_trimmed { initState with inputMessage := " hello " }
     5 7 ⟨"yo", some 2⟩ (by decide) rfl⟩

/-- C3: a fully successful upload of a non-empty file set appends exactly one
assistant confirmation built from the backend confirmation text, and leaves
`uploadedFiles` equal to the file list the backend returns. -/
theorem handleFileUpload_success (s : ChatState) (now : Nat)
    (fs flist : List String) (msg : String) (hfs : fs ≠ []) :
    (handleFileUpload s (some fs) now (UploadResponse.success msg)
        (FilesResponse.success (some flist))).1
      = { s with
            messages := s.messages ++
              [⟨now, "assistant", msg ++ ". Kya puchna hai?", now, none, false⟩],
            uploadedFiles := flist, isUploading := false } ∧
    (handleFileUpload s (some fs) now (UploadResponse.success msg)
        (FilesResponse.success (some flist))).2
      = [Request.postUpload fs, Request.getFiles] := by
  have hlen : ¬ fs.length = 0 := by simpa using hfs
  simp [handleFileUpload, loadUploadedFiles, hlen]

theorem handleFileUpload_success_witness :
    (["a.txt"] : List String) ≠ [] ∧
    ((handleFileUpload initState (some ["a.txt"]) 4
        (UploadResponse.success "Uploaded 1 file")
        (FilesResponse.success (some ["a.txt"]))).1
      = { initState with
            messages := [⟨4, "assistant", "Uploaded 1 file" ++ ". Kya puchna hai?",
                          4, none, false⟩],
            uploadedFiles := ["a.txt"], isUploading := false } ∧
    (handleFileUpload initState (some ["a.txt"]) 4
        (UploadResponse.success "Uploaded 1 file")
        (FilesResponse.success (some ["a.txt"]))).2
      = [Request.postUpload ["a.txt"], Request.getFiles]) :=
  ⟨by decide,
   handleFileUpload_success initState 4 ["a.txt"] ["a.txt"] "Uploaded 1 file"
     (by decide)⟩

/-- C4: clicking send with a non-empty trimmed input and `isLoading` false
performs, before the backend call, exactly these updates: the user message is
appended, the input is cleared, `isLoading` and `isTyping` become true, and
the suggestions are hidden. -/
theorem sendMessage_click_sets_flags (s : ChatState) (now : Nat)
    (h1 : trimString s.inputMessage ≠ "") (h2 : s.isLoading = false) :
    sendMessageStart s none now
      = some ({ s with
                  messages := s.messages ++
                    [⟨now, "user", trimString s.inputMessage, now, none, false⟩],
                  inputMessage := "", isLoading := true, isTyping := true,
                  showSuggestions := false },
              trimString s.inputMessage) :=
  sendMessageStart_none_eq h1 h2

theorem sendMessage_click_sets_flags_witness :
    trimString (" ok " : String) ≠ "" ∧
    sendMessageStart { initState with inputMessage := " ok " } none 3
      = some ({ initState with
                  messages := [⟨3, "user", trimString " ok ", 3, none, false⟩],
                  inputMessage := "", isLoading := true, isTyping := true,
                  showSuggestions := false },
              trimString " ok ") :=
  ⟨by decide,
   sendMessage_click_sets_flags { initState with inputMessage := " ok " } 3
     (by decide) rfl⟩

/-- A request some handler of the component issues, in some state, for some
backend responses: the requests of `loadUploadedFiles`, `handleFileUpload`,
`handleDrop` and `sendMessage`. -/
inductive IssuedRequest : Request → Prop where
  | ofLoad (s : ChatState) (resp : FilesResponse) (req : Request) :
      req ∈ (loadUploadedFiles s resp).2 → IssuedRequest req
  | ofUpload (s : ChatState) (files : Option (List String)) (now : Nat)
      (uresp : UploadResponse) (fresp : FilesResponse) (req : Request) :
      req ∈ (handleFileUpload s files now uresp fresp).2 → IssuedRequest req
  | ofDrop (s : ChatState) (files : Option (List String)) (now : Nat)
      (uresp : UploadResponse) (fresp : FilesResponse) (req : Request) :
      req ∈ (handleDrop s files now uresp fresp).2 → IssuedRequest req
  | ofSend (s : ChatState) (mt : Option String) (now now2 : Nat)
      (resp : ChatResponse) (req : Request) :
      req ∈ (sendMessage s mt now now2 resp).requests → IssuedRequest req

/-- C2 counterexample: `loadUploadedFiles` (run on mount and after each
upload) issues `GET /files`, a third endpoint beyond the chat completion
endpoint `/chat` and the upload endpoint `/upload`. -/
theorem component_uses_third_endpoint :
    IssuedRequest Request.getFiles ∧
    Request.endpoint Request.getFiles ≠ "/chat" ∧
    Request.endpoint Request.getFiles ≠ "/upload" :=
  ⟨IssuedRequest.ofLoad initState FilesResponse.failure Request.getFiles
     (by simp [loadUploadedFiles]),
   by decide, by decide⟩

/-- C2 amended: every request any operation of the component issues goes to
one of exactly three endpoints, `/chat`, `/upload` and `/files`; no fourth
endpoint is ever contacted. -/
theorem issued_requests_three_endpoints (req : Request)
    (h : IssuedRequest req) :
    Request.endpoint req = "/chat" ∨ Request.endpoint req = "/upload" ∨
      Request.endpoint req = "/files" := by
  cases req with
  | getFiles => exact Or.inr (Or.inr rfl)
  | postUpload fs => exact Or.inr (Or.inl rfl)
  | postChat m st => exact Or.inl rfl

theorem issued_requests_three_endpoints_witness :
    Request.endpoint Request.getFiles = "/chat" ∨
      Request.endpoint Request.getFiles = "/upload" ∨
      Request.endpoint Request.getFiles = "/files" :=
  issued_requests_three_endpoints Request.getFiles
    (IssuedRequest.ofLoad initState FilesResponse.failure Request.getFiles
      (by simp [loadUploadedFiles]))

/-- C5: on every reachable state, `startListening` turns the listening flag
on exactly when a recognition instance exists (and is otherwise a no-op, in
particular when already listening), `stopListening` always ends not
listening and is a no-op when not listening, and `stopSpeaking` always ends
not speaking and is idempotent. -/
theorem voice_toggles_guarded (w : World) (h : Reachable w) :
    startListening w.ui
      = { w.ui with isListening := w.ui.isListening || w.ui.recognition } ∧
    stopListening w.ui = { w.ui with isListening := false } ∧
    stopSpeaking w.ui = { w.ui with isSpeaking := false } ∧
    stopSpeaking (stopSpeaking w.ui) = stopSpeaking w.ui := by
  obtain ⟨i1, i2, i3, i4⟩ := reachable_inv h
  refine ⟨startListening_eq w.ui, ?_, ?_, ?_⟩
  · unfold stopListening
    split
    · rfl
    · next hc =>
      have hl : w.ui.isListening = false := by
        by_contra hx
        rw [Bool.not_eq_false] at hx
        exact hc ⟨i3 hx, hx⟩
      ext <;> simp [hl]
  · unfold stopSpeaking
    split
    · rfl
    · next hc =>
      have hsp : w.ui.isSpeaking = false := by
        by_contra hx
        rw [Bool.not_eq_false] at hx
        exact hc (i4 hx)
      ext <;> simp [hsp]
  · unfold stopSpeaking
    split
    · next hc => simp [hc]
    · next hc => simp [hc]

theorem voice_toggles_guarded_witness :
    startListening initWorld.ui
      = { initWorld.ui with
            isListening := initWorld.ui.isListening || initWorld.ui.recognition } ∧
    stopListening initWorld.ui = { initWorld.ui with isListening := false } ∧
    stopSpeaking initWorld.ui = { initWorld.ui with isSpeaking := false } ∧
    stopSpeaking (stopSpeaking initWorld.ui) = stopSpeaking initWorld.ui :=
  voice_toggles_guarded initWorld Reachable.init

/-- C6: `handleDragOver` only sets `isDragging` and `handleDragLeave` only
clears it — messages, input, loading, typing and uploaded files are
untouched — while `handleDrop` clears `isDragging` and then runs exactly
`handleFileUpload` on the dropped files. -/
theorem drag_handlers_frame (s : ChatState) (files : Option (List String))
    (now : Nat) (uresp : UploadResponse) (fresp : FilesResponse) :
    handleDragOver s = { s with isDragging := true } ∧
    handleDragLeave s = { s with isDragging := false } ∧
    (handleDragOver s).messages = s.messages ∧
    (handleDragOver s).inputMessage = s.inputMessage ∧
    (handleDragOver s).isLoading = s.isLoading ∧
    (handleDragOver s).isTyping = s.isTyping ∧
    (handleDragOver s).uploadedFiles = s.uploadedFiles ∧
    (handleDragLeave s).messages = s.messages ∧
    (handleDragLeave s).inputMessage = s.inputMessage ∧
    (handleDragLeave s).isLoading = s.isLoading ∧
    (handleDragLeave s).isTyping = s.isTyping ∧
    (handleDragLeave s).uploadedFiles = s.uploadedFiles ∧
    handleDrop s files now uresp fresp
      = handleFileUpload { s with isDragging := false } files now uresp fresp :=
  ⟨rfl, rfl, rfl, rfl, rfl, rfl, rfl, rfl, rfl, rfl, rfl, rfl, rfl⟩

/-- C7: in every reachable quiescent world (no chat request in flight) the
typing indicator is off: `isTyping` is turned on only by the start of a chat
request and turned off, together with the in-flight flag, by its
completion. -/
theorem typing_indicator_quiescent (w : World) (h : Reachable w)
    (hq : w.pendingChat = false) : w.ui.isTyping = false := by
  obtain ⟨i1, i2, i3, i4⟩ := reachable_inv h
  by_contra hx
  rw [Bool.not_eq_false] at hx
  rw [i2 hx] at hq
  simp at hq

theorem typing_indicator_quiescent_witness : initWorld.ui.isTyping = false :=
  typing_indicator_quiescent initWorld Reachable.init rfl

/-- C8: `sendMessage` with empty trimmed input and no argument, or with a
request already in flight, is a complete no-op — no request, no state
change; so is `handleFileUpload` on a null or empty file set. -/
theorem sendMessage_and_upload_noop (s s2 s3 : ChatState) (mt : Option String)
    (now now2 n3 : Nat) (resp resp2 : ChatResponse)
    (uresp : UploadResponse) (fresp : FilesResponse)
    (h1 : trimString s.inputMessage = "") (h2 : s2.isLoading = true) :
    sendMessage s none now now2 resp = ⟨s, [], none⟩ ∧
    sendMessage s2 mt now now2 resp2 = ⟨s2, [], none⟩ ∧
    handleFileUpload s3 none n3 uresp fresp = (s3, []) ∧
    handleFileUpload s3 (some []) n3 uresp fresp = (s3, []) := by
  refine ⟨?_, ?_, ?_, ?_⟩
  · simp [sendMessage, sendMessageStart, sendMessageText, h1]
  · simp [sendMessage, sendMessageStart, h2]
  · rfl
  · simp [handleFileUpload]

theorem sendMessage_and_upload_noop_witness :
    trimString ("  " : String) = "" ∧
    ({ initState with isLoading := true } : ChatState).isLoading = true ∧
    (sendMessage { initState with inputMessage := "  " } none 1 2
        ChatResponse.failure
      = ⟨{ initState with inputMessage := "  " }, [], none⟩ ∧
    sendMessage { initState with isLoading := true } (some "hi") 1 2
        ChatResponse.failure
      = ⟨{ initState with isLoading := true }, [], none⟩ ∧
    handleFileUpload initState none 3 UploadResponse.failure
        FilesResponse.failure = (initState, []) ∧
    handleFileUpload initState (some []) 3 UploadResponse.failure
        FilesResponse.failure = (initState, [])) :=
  ⟨by decide, rfl,
   sendMessage_and_upload_noop { initState with inputMessage := "  " }
     { initState with isLoading := true } initState (some "hi") 1 2 3
     ChatResponse.failure ChatResponse.failure UploadResponse.failure
     FilesResponse.failure (by decide) rfl⟩

/-- C9: after a successful chat reply the text scheduled for auto-speech is
the reply itself exactly when its length is strictly below 200 characters,
and nothing is scheduled exactly when it is not. -/
theorem auto_speak_short_replies (s : ChatState) (now : Nat) (r : ChatSuccess) :
    ((sendMessageComplete s now (ChatResponse.success r)).2 = some r.content
        ↔ r.content.length < 200) ∧
    ((sendMessageComplete s now (ChatResponse.success r)).2 = none
        ↔ ¬ r.content.length < 200) := by
  unfold sendMessageComplete
  by_cases h : r.content.length < 200 <;> simp [h]

/-- C10: on backend failure `sendMessage` appends exactly one error-flagged
assistant message with the fixed apology text after the preserved history
(plus the user message it had already appended) and clears both in-flight
flags, and `handleFileUpload` appends exactly one error-flagged assistant
message with the fixed upload-failure text after the preserved history and
clears `isUploading`. -/
theorem failure_paths_append_error (s s2 : ChatState) (now now2 n3 : Nat)
    (fs : List String) (fresp : FilesResponse)
    (h1 : trimString s.inputMessage ≠ "") (h2 : s.isLoading = false)
    (h3 : fs ≠ []) :
    (sendMessage s none now now2 ChatResponse.failure).state.messages
      = s.messages ++
          [⟨now, "user", trimString s.inputMessage, now, none, false⟩,
           ⟨now2 + 1, "assistant", "Sorry, something went wrong. Please try again!",
            now2, none, true⟩] ∧
    (sendMessage s none now now2 ChatResponse.failure).state.isLoading = false ∧
    (sendMessage s none now now2 ChatResponse.failure).state.isTyping = false ∧
    (handleFileUpload s2 (some fs) n3 UploadResponse.failure fresp).1.messages
      = s2.messages ++
          [⟨n3, "assistant", "File upload failed. Please try again.", n3, none, true⟩] ∧
    (handleFileUpload s2 (some fs) n3 UploadResponse.failure fresp).1.isUploading
      = false := by
  have hlen : ¬ fs.length = 0 := by simpa using h3
  have hsend : sendMessage s none now now2 ChatResponse.failure
      = ⟨(sendMessageComplete
            { s with
                messages := s.messages ++
                  [⟨now, "user", trimString s.inputMessage, now, none, false⟩],
                inputMessage := "", isLoading := true, isTyping := true,
                showSuggestions := false } now2 ChatResponse.failure).1,
         [Request.postChat (trimString s.inputMessage) false],
         (sendMessageComplete
            { s with
                messages := s.messages ++
                  [⟨now, "user", trimString s.inputMessage, now, none, false⟩],
                inputMessage := "", isLoading := true, isTyping := true,
                showSuggestions := false } now2 ChatResponse.failure).2⟩ := by
    unfold sendMessage
    rw [sendMessageStart_none_eq h1 h2]
  refine ⟨?_, ?_, ?_, ?_, ?_⟩
  · rw [hsend]; simp [sendMessageComplete]
  · rw [hsend]; simp [sendMessageComplete]
  · rw [hsend]; simp [sendMessageComplete]
  · simp [handleFileUpload, hlen]
  · simp [handleFileUpload, hlen]

theorem failure_paths_append_error_witness :
    trimString (" q " : String) ≠ "" ∧
    (["b.pdf"] : List String) ≠ [] ∧
    ((sendMessage { initState with inputMessage := " q " } none 1 2
        ChatResponse.failure).state.messages
      = [⟨1, "user", trimString " q ", 1, none, false⟩,
         ⟨3, "assistant", "Sorry, something went wrong. Please try again!",
          2, none, true⟩] ∧
    (sendMessage { initState with inputMessage := " q " } none 1 2
        ChatResponse.failure).state.isLoading = false ∧
    (sendMessage { initState with inputMessage := " q " } none 1 2
        ChatResponse.failure).state.isTyping = false ∧
    (handleFileUpload initState (some ["b.pdf"]) 4 UploadResponse.failure
        FilesResponse.failure).1.messages
      = [⟨4, "assistant", "File upload failed. Please try again.", 4, none, true⟩] ∧
    (handleFileUpload initState (some ["b.pdf"]) 4 UploadResponse.failure
        FilesResponse.failure).1.isUploading = false) :=
  ⟨by decide, by decide,
   failure_paths_append_error { initState with inputMessage := " q " } initState
     1 2 4 ["b.pdf"] FilesResponse.failure (by decide) rfl (by decide)⟩
